import Mathlib

/-!
Verification development for the SecureCipher banking frontend core
(crypto engine `cryptoEngine.js` and request layer `secureApiClient.js`).

The JavaScript source is shallowly embedded below:
* JSON values and `JSON.stringify` (including the ECMA-262 replacer-array
  semantics: when the second argument is an array of property names, it acts
  as a whitelist applied at every nesting level, and fixes the output order
  of object members) are modelled exactly;
* Web Crypto primitives (`subtle.digest`, `subtle.sign`, `subtle.generateKey`,
  `subtle.encrypt`, `getRandomValues`) are external to the repository, so they
  are modelled symbolically: the digest is a caller-supplied function that may
  fail (mirroring the `try/catch` around it), a signature is identified with
  the exact byte string handed to `subtle.sign`, and fresh key/IV material is
  drawn from a monotone entropy counter;
* IndexedDB is modelled as a record store with transactional semantics: the
  three `put` operations of `storeKeyPair` run in one transaction, an error on
  any request aborts the transaction (the handlers never call
  `preventDefault`), and `resolve` fires only on `oncomplete`.
-/

namespace SecureBanking

/-- JSON values as produced by the JavaScript object literals in the source.
Object members keep their insertion order, as JS objects do. -/
inductive Json where
  | null : Json
  | bool (b : Bool) : Json
  | num (n : Int) : Json
  | str (s : String) : Json
  | arr (xs : List Json) : Json
  | obj (fields : List (String × Json)) : Json
deriving Repr

/-- Code-unit comparison of character lists, as used by the default
`Array.prototype.sort` comparator on the key strings. -/
def charsLe : List Char → List Char → Bool
  | [], _ => true
  | _ :: _, [] => false
  | a :: as, b :: bs => if a = b then charsLe as bs else decide (a < b)

/-- String order used by `Object.keys(data).sort()`. -/
def strLeB (a b : String) : Bool := charsLe a.toList b.toList

/-- The sort order on JSON keys, as a proposition. -/
def keyOrder (a b : String) : Prop := strLeB a b = true

instance : DecidableRel keyOrder := fun a b =>
  inferInstanceAs (Decidable (strLeB a b = true))

/-- `Object.keys(o).sort()`: sort a key list with the default comparator. -/
def sortKeys (l : List String) : List String := List.insertionSort keyOrder l

/-- JSON string escaping (the characters that actually occur in the source's
payloads only need the quote and backslash cases). -/
def jsEscapeChar (c : Char) : String :=
  if c = '"' then "\\\"" else if c = '\\' then "\\\\" else String.singleton c

/-- Serialize a string as a JSON string literal. -/
def jsonQuote (s : String) : String :=
  "\"" ++ String.join (s.toList.map jsEscapeChar) ++ "\""

/-- Join serialized members with commas. -/
def commaJoin (l : List String) : String := String.intercalate "," l

/-- First-match association lookup: JS property access on the object collected
from an object literal (duplicate keys cannot occur there). -/
def kvLookup (k : String) : List (String × α) → Option α
  | [] => none
  | (k', v) :: rest => if k = k' then some v else kvLookup k rest

/-- Member selection of `SerializeJSONObject`: with a replacer array `ks` the
members are emitted in the order of `ks`, keeping only keys present on the
object; without a replacer, in insertion order. The pairs carry the already
serialized `"key":value` text. -/
def orderFields : Option (List String) → List (String × String) → List String
  | none, pairs => pairs.map Prod.snd
  | some ks, pairs => ks.filterMap (fun k => kvLookup k pairs)

mutual

/-- `JSON.stringify(v, ks?)`: ECMA-262 serialization where a replacer array
`ks` whitelists and orders object members at every nesting level. -/
def strVal (ks : Option (List String)) : Json → String
  | .null => "null"
  | .bool b => cond b "true" "false"
  | .num n => toString n
  | .str s => jsonQuote s
  | .arr xs => "[" ++ commaJoin (strElems ks xs) ++ "]"
  | .obj fs => "\x7b" ++ commaJoin (orderFields ks (fieldStrs ks fs)) ++ "\x7d"

/-- Serialize array elements (the replacer array never filters indices). -/
def strElems (ks : Option (List String)) : List Json → List String
  | [] => []
  | x :: xs => strVal ks x :: strElems ks xs

/-- Serialize each member to its `"key":value` text, keyed for selection. -/
def fieldStrs (ks : Option (List String)) : List (String × Json) → List (String × String)
  | [] => []
  | (k, v) :: rest => (k, jsonQuote k ++ ":" ++ strVal ks v) :: fieldStrs ks rest

end

/-- `Object.keys(o)` (insertion order; empty for non-objects). -/
def objKeys : Json → List String
  | .obj fs => fs.map Prod.fst
  | _ => []

/-- The replacer the source builds: `Object.keys(data).sort()`. -/
def sortedTopKeys (j : Json) : List String := sortKeys (objKeys j)

/-- The exact byte string `signData` encodes and hands to `subtle.sign`:
`JSON.stringify(data, Object.keys(data).sort())` (`cryptoEngine.js`,
`signData`). The produced ECDSA signature is identified with this string,
since the external primitive binds exactly these bytes. -/
def signDataBytes (d : Json) : String := strVal (some (sortedTopKeys d)) d

/-- The `keyString` hashed by `generateFingerprint`:
`JSON.stringify(publicKeyJWK, Object.keys(publicKeyJWK).sort())`. -/
def canonKeyString (jwk : Json) : String := strVal (some (sortedTopKeys jwk)) jwk

/-- `hashHex.substr(0, 16)`. -/
def takeChars (n : Nat) (s : String) : String := (s.toList.take n).asString

/-- `generateFingerprint(publicKeyJWK)` (`cryptoEngine.js`): canonicalize the
JWK, digest it with the external SHA-256 primitive (modelled as a caller
supplied function that may fail, mirroring the `try/catch`), keep the first
16 hex characters; on any failure return the constant string `"unknown"`. -/
def generateFingerprint (digest : String → Option String) (jwk : Json) : String :=
  match digest (canonKeyString jwk) with
  | some hashHex => takeChars 16 hashHex
  | none => "unknown"

/-- JavaScript truthiness of a JSON value, as tested by
`if (data && this.shouldEncrypt(endpoint))`. -/
def jsTruthy : Json → Bool
  | .null => false
  | .bool b => b
  | .num n => n != 0
  | .str s => s != ""
  | .arr _ => true
  | .obj _ => true

/-- Needle occurs at the head of the haystack. -/
def charsPre : List Char → List Char → Bool
  | [], _ => true
  | _ :: _, [] => false
  | a :: as, b :: bs => a == b && charsPre as bs

/-- Needle occurs somewhere in the haystack. -/
def charsSub (needle : List Char) : List Char → Bool
  | [] => charsPre needle []
  | b :: bs => charsPre needle (b :: bs) || charsSub needle bs

/-- `haystack.includes(needle)` on strings. -/
def jsIncludes (hay needle : String) : Bool := charsSub needle.toList hay.toList

/-- The `encryptedEndpoints` list of `shouldEncrypt` (`secureApiClient.js`). -/
def encryptedEndpoints : List String :=
  ["/transactions/", "/transfer/", "/accounts/", "/auth/login/",
   "/auth/change-password/", "/profile/update/", "/cards/", "/beneficiaries/"]

/-- The `signedEndpoints` list of `shouldSign` (`secureApiClient.js`). -/
def signedEndpoints : List String :=
  ["/transactions/", "/accounts/", "/profile/", "/cards/", "/beneficiaries/",
   "/auth/logout/", "/auth/change-password/"]

/-- `shouldEncrypt(endpoint)`: membership by substring test. -/
def shouldEncrypt (endpoint : String) : Bool :=
  encryptedEndpoints.any (fun ep => jsIncludes endpoint ep)

/-- `shouldSign(endpoint)`: membership by substring test. -/
def shouldSign (endpoint : String) : Bool :=
  signedEndpoints.any (fun ep => jsIncludes endpoint ep)

/-- The `key_metadata` record written by `storeKeyPair`. -/
structure KeyMeta where
  created : String
  algorithm : String
  curve : String
  fingerprint : String
deriving Repr, DecidableEq

/-- The IndexedDB object store `"keys"`, holding the three logical records
under the fixed keys `"ecdsa_private_key"`, `"ecdsa_public_key"` and
`"key_metadata"` (key material records are stored as JWK objects). -/
structure Store where
  privRec : Option Json
  pubRec : Option Json
  metaRec : Option KeyMeta

/-- One `store.put` operation issued inside the `storeKeyPair` transaction. -/
inductive PutOp where
  | priv (v : Json)
  | pub (v : Json)
  | meta (m : KeyMeta)

/-- Effect of a committed put on the record store. -/
def applyPut (st : Store) : PutOp → Store
  | .priv v => { st with privRec := some v }
  | .pub v => { st with pubRec := some v }
  | .meta m => { st with metaRec := some m }

/-- The rejection message of the per-request `onerror` handler that fires. -/
def putFailMsg : PutOp → String
  | .priv _ => "Private key storage failed"
  | .pub _ => "Public key storage failed"
  | .meta _ => "Metadata storage failed"

/-- Run a list of puts as one IndexedDB transaction: an error on any request
aborts the transaction and rolls every tentative write back (the source's
request handlers never call `preventDefault`, so the first failing request
aborts); otherwise the transaction commits all writes and `oncomplete`
resolves. The second component is the store a subsequent load observes. -/
def runTxn (fails : PutOp → Bool) (st : Store) (ops : List PutOp) :
    Except String Unit × Store :=
  match ops.find? fails with
  | some op => (.error (putFailMsg op), st)
  | none => (.ok (), ops.foldl applyPut st)

/-- `storeKeyPair(keyPair)` (`cryptoEngine.js`, current version): export both
JWKs and compute the fingerprint first, then put the private key, public key
and metadata record inside a single fresh `readwrite` transaction. -/
def storeKeyPair (digest : String → Option String) (created : String)
    (privJwk pubJwk : Json) (fails : PutOp → Bool) (st : Store) :
    Except String Unit × Store :=
  let fp := generateFingerprint digest pubJwk
  runTxn fails st
    [.priv privJwk, .pub pubJwk,
     .meta { created := created, algorithm := "ECDSA", curve := "P-384", fingerprint := fp }]

/-- `hasKeys()`: `!!` of the `key_metadata` record (read errors resolve to
`false`; only the metadata record is consulted). -/
def hasKeys (st : Store) : Bool := st.metaRec.isSome

/-- `getPrivateKey()` up to the presence check: the stored JWK, or the
`"Private key not found"` rejection. (The subsequent `importKey` is an
external primitive.) -/
def getPrivateKeyRec (st : Store) : Except String Json :=
  match st.privRec with
  | some j => .ok j
  | none => .error "Private key not found"

/-- Symbolic private-key JWK of the key pair drawn at entropy index `n`. -/
def privJwkOf (n : Nat) : Json :=
  .obj [("kty", .str "EC"), ("crv", .str "P-384"), ("d", .num n)]

/-- Symbolic public-key JWK of the key pair drawn at entropy index `n`. -/
def pubJwkOf (n : Nat) : Json :=
  .obj [("kty", .str "EC"), ("crv", .str "P-384"), ("x", .num n)]

/-- The envelope returned by `encryptData`: base64 ciphertext, IV and the
exported one-time AES key. Key and IV are entropy indices; the ciphertext is
the symbolic AES-GCM term over them and the serialized plaintext. -/
structure EncEnvelope where
  encrypted : String
  iv : Nat
  key : Nat
deriving Repr, DecidableEq

/-- `encryptData(data, key = null)` (`cryptoEngine.js`): use the caller's key
if one is passed, otherwise generate a fresh AES-256-GCM key; always draw a
fresh random 12-byte IV; encrypt `JSON.stringify(data)`; return ciphertext,
IV and the exported key. Fresh randomness is modelled by a monotone entropy
counter `rng`; the next counter value is returned. -/
def encryptData (data : Json) (key : Option Nat) (rng : Nat) : EncEnvelope × Nat :=
  let p := match key with
    | some k => (k, rng)
    | none => (rng, rng + 1)
  let aesKey := p.1
  let iv := p.2
  let rng2 := p.2 + 1
  ({ encrypted := "AESGCM(" ++ toString aesKey ++ ";" ++ toString iv ++ ";"
       ++ strVal none data ++ ")",
     iv := iv, key := aesKey }, rng2)

/-- The value object assembled by `createSecureRequest`: the plaintext
`requestPayload` fields, the signature (identified with the signed bytes),
the key fingerprint, and the optional encryption envelope. -/
structure SecureRequest where
  endpoint : String
  method : String
  data : Json
  timestamp : String
  request_id : String
  signature : String
  fingerprint : String
  encrypted_data : Option EncEnvelope

/-- The `requestPayload` object literal of `createSecureRequest`, in its
insertion order. -/
def requestPayloadJson (endpoint method : String) (data : Json) (ts rid : String) : Json :=
  .obj [("endpoint", .str endpoint), ("method", .str method), ("data", data),
        ("timestamp", .str ts), ("request_id", .str rid)]

/-- `createSecureRequest(endpoint, method, data)` after session
initialization: build `requestPayload`, sign it (the signature covers
`signDataBytes requestPayload`, the plaintext canonical envelope), then, if
the payload is truthy and `shouldEncrypt(endpoint)`, call
`encryptData(data)`; assemble the spread
`\x7b...requestPayload, signature, public_key_fingerprint, encrypted_data\x7d`. -/
def createSecureRequest (endpoint method : String) (data : Json)
    (ts rid fp : String) (rng : Nat) : SecureRequest × Nat :=
  let payload := requestPayloadJson endpoint method data ts rid
  let signature := signDataBytes payload
  let q := if jsTruthy data && shouldEncrypt endpoint then
      let r := encryptData data none rng
      (some r.1, r.2)
    else (none, rng)
  ({ endpoint := endpoint, method := method, data := data, timestamp := ts,
     request_id := rid, signature := signature, fingerprint := fp,
     encrypted_data := q.1 }, q.2)

/-- JSON rendering of `encrypted_data` in the transmitted body. -/
def encEnvelopeJson : Option EncEnvelope → Json
  | none => .null
  | some e => .obj [("encrypted", .str e.encrypted), ("iv", .str (toString e.iv)),
                    ("key", .num e.key)]

/-- The `secureRequest` object literal: the spread of `requestPayload`
followed by `signature`, `public_key_fingerprint` and `encrypted_data`. -/
def secureRequestJson (sr : SecureRequest) : Json :=
  .obj [("endpoint", .str sr.endpoint), ("method", .str sr.method),
        ("data", sr.data), ("timestamp", .str sr.timestamp),
        ("request_id", .str sr.request_id), ("signature", .str sr.signature),
        ("public_key_fingerprint", .str sr.fingerprint),
        ("encrypted_data", encEnvelopeJson sr.encrypted_data)]

/-- The caller-supplied `options` object. A `headers` own-property replaces
the assembled header object entirely (the trailing `...options` spread wins),
and a `body` own-property replaces the assembled body; every call site in the
repository passes no options. -/
structure RequestOptions where
  headersOverride : Option (List (String × String)) := none
  bodyOverride : Option String := none

/-- The default `options = \x7b\x7d`. -/
def noOpts : RequestOptions := {}

/-- Dispatched transport request (`fetch` argument). -/
structure TransportRequest where
  method : String
  headers : List (String × String)
  body : Option String

/-- The security headers attached by `createSecureRequest`. -/
def baseSecureHeaders (rid ts sig fp : String) : List (String × String) :=
  [("Content-Type", "application/json"), ("X-Secure-Cipher", "true"),
   ("X-Request-ID", rid), ("X-Timestamp", ts), ("X-Signature", sig),
   ("X-Fingerprint", fp)]

/-- The `Authorization` header added after the options spread when a token is
present in storage. -/
def authHeaders : Option String → List (String × String)
  | none => []
  | some t => [("Authorization", "Token " ++ t)]

/-- `body: method !== 'GET' ? JSON.stringify(secureRequest) : undefined`,
subject to the `...options` spread. -/
def transmittedBody (method : String) (sr : SecureRequest)
    (opts : RequestOptions) : Option String :=
  match opts.bodyOverride with
  | some b => some b
  | none => if method != "GET" then some (strVal none (secureRequestJson sr)) else none

/-- The `fetch` request built by `createSecureRequest`. -/
def dispatchSecure (endpoint method : String) (data : Json)
    (ts rid fp : String) (rng : Nat) (tok : Option String)
    (opts : RequestOptions) : TransportRequest :=
  let sr := (createSecureRequest endpoint method data ts rid fp rng).1
  { method := method,
    headers :=
      (match opts.headersOverride with
       | some hs => hs
       | none => baseSecureHeaders rid ts sr.signature fp) ++ authHeaders tok,
    body := transmittedBody method sr opts }

/-- The `fetch` request built by `createRegularRequest`. -/
def dispatchRegular (method : String) (data : Json) (tok : Option String)
    (opts : RequestOptions) : TransportRequest :=
  { method := method,
    headers :=
      (match opts.headersOverride with
       | some hs => hs
       | none => [("Content-Type", "application/json")]) ++ authHeaders tok,
    body :=
      match opts.bodyOverride with
      | some b => some b
      | none => if method != "GET" && jsTruthy data then some (strVal none data) else none }

/-- `smartRequest(endpoint, method, data, options)`: route through the crypto
path when `shouldSign(endpoint) || shouldEncrypt(endpoint)`. -/
def smartRequest (endpoint method : String) (data : Json)
    (ts rid fp : String) (rng : Nat) (tok : Option String)
    (opts : RequestOptions) : TransportRequest :=
  if shouldSign endpoint || shouldEncrypt endpoint then
    dispatchSecure endpoint method data ts rid fp rng tok opts
  else
    dispatchRegular method data tok opts

/-- `get(endpoint, options)`: `smartRequest(endpoint, 'GET', null, options)`. -/
def getRequest (endpoint ts rid fp : String) (rng : Nat) (tok : Option String)
    (opts : RequestOptions) : TransportRequest :=
  smartRequest endpoint "GET" Json.null ts rid fp rng tok opts

/-- Does the dispatched request carry a header with the given name? -/
def hasHeader (r : TransportRequest) (k : String) : Bool :=
  r.headers.any (fun p => p.1 == k)

/-- The mutable fields of the `SecureApiClient` singleton together with
instrumentation counters: `genCount` counts `subtle.generateKey` invocations,
`regCount` counts registration POSTs actually sent. -/
structure ClientState where
  store : Store
  isInitialized : Bool
  genCount : Nat
  regCount : Nat
  rng : Nat

/-- The environment of one `initializeSession` run: whether the external
key-generation primitive succeeds, which puts of the store transaction fail,
whether the registration endpoint answers `ok`, the digest primitive, and the
clock value used for the metadata `created` field. -/
structure Env where
  genOk : Bool
  putFails : PutOp → Bool
  regOk : Bool
  digest : String → Option String
  created : String

/-- `initializeSession()` (`secureApiClient.js`): return immediately when
already initialized; otherwise consult `hasKeys()`. Without keys, generate a
key pair (`generateKeyPair` = `subtle.generateKey` + `storeKeyPair`) and
register the public key; any failure is rethrown and `isInitialized` stays
`false`. With keys, `verifyCryptoStatus()` is called but its failures are
caught and ignored, so this branch always succeeds. -/
def initializeSession (env : Env) (s : ClientState) :
    Except String Bool × ClientState :=
  if s.isInitialized then (.ok true, s)
  else if hasKeys s.store then (.ok true, { s with isInitialized := true })
  else if !env.genOk then
    (.error "Failed to generate cryptographic keys", { s with genCount := s.genCount + 1 })
  else
    let n := s.rng
    let sk := storeKeyPair env.digest env.created (privJwkOf n) (pubJwkOf n)
      env.putFails s.store
    let s1 := { s with genCount := s.genCount + 1, rng := s.rng + 1, store := sk.2 }
    match sk.1 with
    | .error _ => (.error "Failed to generate cryptographic keys", s1)
    | .ok _ =>
      let s2 := { s1 with regCount := s1.regCount + 1 }
      if env.regOk then (.ok true, { s2 with isInitialized := true })
      else (.error "Server registration failed", s2)

/-- An environment in which every external collaborator succeeds. -/
def envAllOk : Env :=
  { genOk := true, putFails := fun _ => false, regOk := true,
    digest := fun s => some s, created := "2025-01-01T00:00:00.000Z" }

/-! Order-theoretic facts about the key comparator, used to show that the
canonicalization step is insensitive to member order. -/

theorem charsLe_trans : ∀ as bs cs, charsLe as bs = true → charsLe bs cs = true →
    charsLe as cs = true
  | [], _, _, _, _ => rfl
  | _ :: _, [], _, h, _ => by simp [charsLe] at h
  | _ :: _, _ :: _, [], _, h => by simp [charsLe] at h
  | a :: as, b :: bs, c :: cs, h1, h2 => by
    simp only [charsLe] at h1 h2 ⊢
    by_cases hab : a = b
    · subst hab
      by_cases hbc : a = c
      · subst hbc
        simp only [if_pos rfl] at h1 h2 ⊢
        exact charsLe_trans as bs cs h1 h2
      · simp only [if_pos rfl] at h1
        simp only [if_neg hbc] at h2 ⊢
        exact h2
    · by_cases hbc : b = c
      · subst hbc
        simp only [if_neg hab] at h1 ⊢
        exact h1
      · simp only [if_neg hab] at h1
        simp only [if_neg hbc] at h2
        have hac : a < c := lt_trans (of_decide_eq_true h1) (of_decide_eq_true h2)
        simp [if_neg (ne_of_lt hac), hac]

theorem charsLe_antisymm : ∀ as bs, charsLe as bs = true → charsLe bs as = true →
    as = bs
  | [], [], _, _ => rfl
  | [], _ :: _, _, h => by simp [charsLe] at h
  | _ :: _, [], h, _ => by simp [charsLe] at h
  | a :: as, b :: bs, h1, h2 => by
    simp only [charsLe] at h1 h2
    by_cases hab : a = b
    · subst hab
      simp only [if_pos rfl] at h1 h2
      rw [charsLe_antisymm as bs h1 h2]
    · have hba : ¬ b = a := fun e => hab e.symm
      simp only [if_neg hab] at h1
      simp only [if_neg hba] at h2
      exact absurd (of_decide_eq_true h2) (lt_asymm (of_decide_eq_true h1))

theorem charsLe_total : ∀ as bs, charsLe as bs = true ∨ charsLe bs as = true
  | [], _ => Or.inl rfl
  | _ :: _, [] => Or.inr rfl
  | a :: as, b :: bs => by
    by_cases hab : a = b
    · subst hab
      rcases charsLe_total as bs with h | h
      · exact Or.inl (by simp [charsLe, h])
      · exact Or.inr (by simp [charsLe, h])
    · rcases lt_or_gt_of_ne hab with h | h
      · exact Or.inl (by simp [charsLe, hab, h])
      · have hba : ¬ b = a := fun e => hab e.symm
        exact Or.inr (by simp [charsLe, hba, h])

instance : IsTrans String keyOrder :=
  ⟨fun _ _ _ h1 h2 => charsLe_trans _ _ _ h1 h2⟩

instance : IsAntisymm String keyOrder :=
  ⟨fun a b h1 h2 => by
    have h := charsLe_antisymm _ _ h1 h2
    obtain ⟨da⟩ := a
    obtain ⟨db⟩ := b
    exact congrArg String.mk (by simpa [String.toList] using h)⟩

instance : IsTotal String keyOrder :=
  ⟨fun x y => charsLe_total x.toList y.toList⟩

/-- Sorting with the default comparator depends only on the multiset of keys:
permuting the input cannot change the sorted output. -/
theorem sortKeys_perm_eq {l1 l2 : List String} (h : l1.Perm l2) :
    sortKeys l1 = sortKeys l2 :=
  List.eq_of_perm_of_sorted
    ((List.perm_insertionSort keyOrder l1).trans
      (h.trans (List.perm_insertionSort keyOrder l2).symm))
    (List.sorted_insertionSort keyOrder l1)
    (List.sorted_insertionSort keyOrder l2)

/-- Property lookup is insensitive to member order when keys are distinct. -/
theorem kvLookup_perm {α : Type} {l1 l2 : List (String × α)} (h : l1.Perm l2) :
    (l1.map Prod.fst).Nodup → ∀ k, kvLookup k l1 = kvLookup k l2 := by
  induction h with
  | nil => intro _ _; rfl
  | cons x h ih =>
    intro nd k
    obtain ⟨k', v⟩ := x
    simp only [List.map_cons, List.nodup_cons] at nd
    simp only [kvLookup]
    by_cases hk : k = k'
    · simp [hk]
    · simp only [if_neg hk]
      exact ih nd.2 k
  | swap x y l =>
    intro nd k
    obtain ⟨ka, va⟩ := x
    obtain ⟨kb, vb⟩ := y
    simp only [List.map_cons, List.nodup_cons, List.mem_cons] at nd
    have hne : kb ≠ ka := fun e => nd.1 (Or.inl e)
    simp only [kvLookup]
    by_cases h1 : k = kb
    · subst h1
      simp [if_neg hne]
    · by_cases h2 : k = ka
      · have hne' : ka ≠ kb := Ne.symm hne
        simp [h2, if_neg h1, hne']
      · simp [if_neg h1, if_neg h2]
  | trans h1 _ ih1 ih2 =>
    intro nd k
    exact (ih1 nd k).trans (ih2 (((h1.map Prod.fst).nodup_iff).mp nd) k)

/-- `fieldStrs` is a per-member map. -/
theorem fieldStrs_eq_map (ks : Option (List String)) (fs : List (String × Json)) :
    fieldStrs ks fs = fs.map (fun p => (p.1, jsonQuote p.1 ++ ":" ++ strVal ks p.2)) := by
  induction fs with
  | nil => rfl
  | cons p rest ih =>
    obtain ⟨k, v⟩ := p
    simp [fieldStrs, ih]

/-- With a replacer array, serializing an object is insensitive to the order
of its members, provided the keys are distinct. -/
theorem strVal_obj_perm (ks : List String) {fs1 fs2 : List (String × Json)}
    (h : fs1.Perm fs2) (nd : (fs1.map Prod.fst).Nodup) :
    strVal (some ks) (.obj fs1) = strVal (some ks) (.obj fs2) := by
  simp only [strVal, orderFields, fieldStrs_eq_map]
  have hmap : ((fs1.map fun p => (p.1, jsonQuote p.1 ++ ":" ++ strVal (some ks) p.2)).map
      Prod.fst).Nodup := by
    simpa [List.map_map, Function.comp] using nd
  have hlook : ∀ k,
      kvLookup k (fs1.map fun p => (p.1, jsonQuote p.1 ++ ":" ++ strVal (some ks) p.2)) =
      kvLookup k (fs2.map fun p => (p.1, jsonQuote p.1 ++ ":" ++ strVal (some ks) p.2)) :=
    kvLookup_perm (h.map _) hmap
  rw [funext hlook]

/-- When no put fails, the `storeKeyPair` transaction commits all three
records. (Shared computation lemma.) -/
theorem storeKeyPair_noFail_store (digest : String → Option String) (created : String)
    (pj pk : Json) (st : Store) :
    storeKeyPair digest created pj pk (fun _ => false) st =
      (.ok (), { privRec := some pj, pubRec := some pk,
                 metaRec := some { created := created, algorithm := "ECDSA",
                                   curve := "P-384",
                                   fingerprint := generateFingerprint digest pk } }) := by
  obtain ⟨p0, q0, m0⟩ := st
  rfl

/-- C5: `storeKeyPair` is atomic with respect to partial writes: if the
transaction commits, all three records (private key, public key, metadata)
are durably written; if any of the three puts fails, the transaction aborts
and a subsequent load observes exactly the prior store, with no partially
written identity. -/
theorem c5_store_atomic (digest : String → Option String) (created : String)
    (pj pk : Json) (fails : PutOp → Bool) (st : Store) :
    ((storeKeyPair digest created pj pk fails st).1 = .ok () →
      (storeKeyPair digest created pj pk fails st).2 =
        { privRec := some pj, pubRec := some pk,
          metaRec := some { created := created, algorithm := "ECDSA", curve := "P-384",
                            fingerprint := generateFingerprint digest pk } }) ∧
    ∀ e, (storeKeyPair digest created pj pk fails st).1 = .error e →
      (storeKeyPair digest created pj pk fails st).2 = st := by
  obtain ⟨p0, q0, m0⟩ := st
  rcases hf : List.find? fails
      [PutOp.priv pj, PutOp.pub pk,
       PutOp.meta { created := created, algorithm := "ECDSA", curve := "P-384",
                    fingerprint := generateFingerprint digest pk }] with _ | op
  · constructor
    · intro _
      simp [storeKeyPair, runTxn, hf, applyPut]
    · intro e he
      simp [storeKeyPair, runTxn, hf] at he
  · constructor
    · intro hok
      simp [storeKeyPair, runTxn, hf] at hok
    · intro e _
      simp [storeKeyPair, runTxn, hf]

/-- C5 witness: at a concrete key pair, a fault-free run writes all three
records, and a run whose first put fails leaves the store unchanged. -/
theorem c5_witness :
    (storeKeyPair (fun s => some s) "t0" (Json.obj [("d", Json.num 1)])
      (Json.obj [("x", Json.num 1)]) (fun _ => false)
      { privRec := none, pubRec := none, metaRec := none }).2.privRec =
        some (Json.obj [("d", Json.num 1)]) ∧
    (storeKeyPair (fun s => some s) "t0" (Json.obj [("d", Json.num 1)])
      (Json.obj [("x", Json.num 1)]) (fun _ => true)
      { privRec := none, pubRec := none, metaRec := none }).2 =
      { privRec := none, pubRec := none, metaRec := none } := by
  constructor
  · have h := (c5_store_atomic (fun s => some s) "t0" (Json.obj [("d", Json.num 1)])
      (Json.obj [("x", Json.num 1)]) (fun _ => false)
      { privRec := none, pubRec := none, metaRec := none }).1 rfl
    rw [h]
  · exact (c5_store_atomic (fun s => some s) "t0" (Json.obj [("d", Json.num 1)])
      (Json.obj [("x", Json.num 1)]) (fun _ => true)
      { privRec := none, pubRec := none, metaRec := none }).2
      "Private key storage failed" rfl

/-- C6 counterexample: the optional `key` parameter of `encryptData` lets a
caller encrypt under a previously used key: the first call (no key passed)
draws key 0, and a later call passing that key encrypts under key 0 again,
so reuse of a key across two calls is not structurally impossible. -/
theorem c6_counterexample :
    (encryptData (Json.str "first message") none 0).1.key = 0 ∧
    (encryptData (Json.str "second message") (some 0) 5).1.key = 0 :=
  ⟨rfl, rfl⟩

/-- C6 amended: when `encryptData` is invoked without an explicit key — as
every call site in the repository does — each call draws a fresh one-time
AES key and a fresh IV: two sequential calls never share the key, the IV, or
the (key, IV) pair. -/
theorem c6_fresh_key_and_nonce (d1 d2 : Json) (rng : Nat) :
    (encryptData d1 none rng).1.key ≠
      (encryptData d2 none (encryptData d1 none rng).2).1.key ∧
    (encryptData d1 none rng).1.iv ≠
      (encryptData d2 none (encryptData d1 none rng).2).1.iv ∧
    ((encryptData d1 none rng).1.key, (encryptData d1 none rng).1.iv) ≠
      ((encryptData d2 none (encryptData d1 none rng).2).1.key,
       (encryptData d2 none (encryptData d1 none rng).2).1.iv) := by
  refine ⟨?_, ?_, ?_⟩
  · show rng ≠ rng + 2
    omega
  · show rng + 1 ≠ rng + 3
    omega
  · show (rng, rng + 1) ≠ (rng + 2, rng + 3)
    simp only [ne_eq, Prod.mk.injEq, not_and]
    intro hk
    omega

/-- C7 counterexample: the fingerprint does not change exactly when the key
changes: when the digest primitive fails (the caught branch of
`generateFingerprint`), two public keys with different canonical key material
both receive the constant fingerprint `"unknown"`. -/
theorem c7_counterexample :
    generateFingerprint (fun _ => none) (Json.obj [("x", Json.str "key-one")]) =
      generateFingerprint (fun _ => none) (Json.obj [("x", Json.str "key-two")]) ∧
    canonKeyString (Json.obj [("x", Json.str "key-one")]) ≠
      canonKeyString (Json.obj [("x", Json.str "key-two")]) := by
  exact ⟨rfl, by decide⟩

/-- C7 amended: `generateFingerprint` is a pure function of the public key
JWK (determinism is definitional), and canonicalization makes it insensitive
to the order in which the JWK's members are presented: permuting the members
of a JWK with distinct keys never changes the fingerprint. The converse
direction — distinct keys always yielding distinct fingerprints — does not
hold (see the counterexample). -/
theorem c7_fingerprint_perm_invariant (digest : String → Option String)
    {fs1 fs2 : List (String × Json)} (h : fs1.Perm fs2)
    (nd : (fs1.map Prod.fst).Nodup) :
    generateFingerprint digest (.obj fs1) = generateFingerprint digest (.obj fs2) := by
  have hkeys : sortedTopKeys (.obj fs1) = sortedTopKeys (.obj fs2) := by
    simp only [sortedTopKeys, objKeys]
    exact sortKeys_perm_eq (h.map Prod.fst)
  have hcanon : canonKeyString (.obj fs1) = canonKeyString (.obj fs2) := by
    simp only [canonKeyString, hkeys]
    exact strVal_obj_perm _ h nd
  simp [generateFingerprint, hcanon]

/-- C7 witness: the two member orders of a concrete P-384 JWK yield the same
fingerprint. -/
theorem c7_witness :
    generateFingerprint (fun s => some s)
      (.obj [("kty", Json.str "EC"), ("crv", Json.str "P-384")]) =
    generateFingerprint (fun s => some s)
      (.obj [("crv", Json.str "P-384"), ("kty", Json.str "EC")]) :=
  c7_fingerprint_perm_invariant (fun s => some s)
    (List.Perm.swap ("crv", Json.str "P-384") ("kty", Json.str "EC") [])
    (by decide)

/-- C10: whenever the digest of the public key fails, `generateFingerprint`
swallows the error and returns the constant `"unknown"`; two distinct public
keys can therefore both be fingerprinted `"unknown"`, and `storeKeyPair`
persists that constant as the identity's fingerprint in the metadata
record. -/
theorem c10_unknown_fingerprint (digest : String → Option String)
    (jwk1 jwk2 pj : Json) (created : String) (st : Store)
    (h1 : digest (canonKeyString jwk1) = none)
    (h2 : digest (canonKeyString jwk2) = none) :
    generateFingerprint digest jwk1 = "unknown" ∧
    generateFingerprint digest jwk2 = "unknown" ∧
    (storeKeyPair digest created pj jwk1 (fun _ => false) st).2.metaRec =
      some { created := created, algorithm := "ECDSA", curve := "P-384",
             fingerprint := "unknown" } := by
  have g1 : generateFingerprint digest jwk1 = "unknown" := by
    simp [generateFingerprint, h1]
  have g2 : generateFingerprint digest jwk2 = "unknown" := by
    simp [generateFingerprint, h2]
  refine ⟨g1, g2, ?_⟩
  rw [storeKeyPair_noFail_store, g1]

/-- C10 witness: with a failing digest, two distinct keys both get
`"unknown"` and the stored metadata records it. -/
theorem c10_witness :
    generateFingerprint (fun _ => none) (Json.obj [("y", Json.num 1)]) = "unknown" ∧
    generateFingerprint (fun _ => none) (Json.obj [("y", Json.num 2)]) = "unknown" ∧
    (storeKeyPair (fun _ => none) "t1" (Json.obj [("d", Json.num 3)])
      (Json.obj [("y", Json.num 1)]) (fun _ => false)
      { privRec := none, pubRec := none, metaRec := none }).2.metaRec =
      some { created := "t1", algorithm := "ECDSA", curve := "P-384",
             fingerprint := "unknown" } :=
  c10_unknown_fingerprint (fun _ => none) (Json.obj [("y", Json.num 1)])
    (Json.obj [("y", Json.num 2)]) (Json.obj [("d", Json.num 3)]) "t1"
    { privRec := none, pubRec := none, metaRec := none } rfl rfl

/-- The payload of the C1 scenario: `\x7b"amount": 100\x7d`. -/
def c1data : Json := Json.obj [("amount", Json.num 100)]

/-- The secure request built for a sign-and-encrypt operation with payload
`c1data` (the `/transactions/transfer/` call site). -/
def c1sr : SecureRequest :=
  (createSecureRequest "/transactions/transfer/" "POST" c1data
    "2025-01-01T00:00:00.000Z" "req_1_abc" "fp1234" 0).1

set_option maxRecDepth 100000 in
/-- C1: for a sign-and-encrypt operation, the signature is indeed computed
over the plaintext canonical envelope and an encryption envelope is attached
— but the transmitted body does NOT replace the plaintext payload: the
spread `...requestPayload` keeps the original `data` field, so the plaintext
`"data":\x7b"amount":100\x7d` member is still present in the transmitted
request body alongside `encrypted_data`. -/
theorem c1_plaintext_retained :
    c1sr.signature =
      signDataBytes (requestPayloadJson "/transactions/transfer/" "POST" c1data
        "2025-01-01T00:00:00.000Z" "req_1_abc") ∧
    c1sr.encrypted_data.isSome = true ∧
    c1sr.data = c1data ∧
    jsIncludes ((transmittedBody "POST" c1sr noOpts).getD "")
      "\"data\":\x7b\"amount\":100\x7d" = true := by
  exact ⟨rfl, rfl, rfl, by decide⟩

/-- A canonical envelope whose nested payload is `amount 100`. -/
def c2payloadA : Json :=
  requestPayloadJson "/transactions/transfer/" "POST"
    (Json.obj [("amount", Json.num 100), ("to_account", Json.str "0123456789")])
    "2025-01-01T00:00:00.000Z" "req_1_abc"

/-- The same envelope with a different amount and destination account. -/
def c2payloadB : Json :=
  requestPayloadJson "/transactions/transfer/" "POST"
    (Json.obj [("amount", Json.num 999999), ("to_account", Json.str "9999999999")])
    "2025-01-01T00:00:00.000Z" "req_1_abc"

/-- C2: the replacer array `Object.keys(data).sort()` whitelists properties
at every nesting level, so the keys of the nested `data` object are dropped
from the signed bytes: two envelopes differing only in the transfer amount
and destination account serialize — and hence sign — identically, the word
`amount` never appears in the signed bytes, and the nested payload
serializes as the empty object. -/
theorem c2_nested_keys_dropped :
    signDataBytes c2payloadA = signDataBytes c2payloadB ∧
    jsIncludes (signDataBytes c2payloadA) "amount" = false ∧
    signDataBytes c2payloadA =
      "\x7b\"data\":\x7b\x7d,\"endpoint\":\"/transactions/transfer/\",\"method\":\"POST\",\"request_id\":\"req_1_abc\",\"timestamp\":\"2025-01-01T00:00:00.000Z\"\x7d" := by
  exact ⟨rfl, by decide, rfl⟩

/-- A store in the Corrupt state: the metadata record exists but the private
key record is missing. -/
def c3state : ClientState :=
  { store := { privRec := none, pubRec := none,
               metaRec := some { created := "2024-12-31T00:00:00.000Z",
                                 algorithm := "ECDSA", curve := "P-384",
                                 fingerprint := "abcd1234abcd1234" } },
    isInitialized := false, genCount := 0, regCount := 0, rng := 0 }

/-- C3 counterexample: on a Corrupt store (metadata present, private key
record absent), `initializeSession` reports success and marks the session
initialized — it does not surface an error, even though retrieving the
private key from this store fails. -/
theorem c3_counterexample :
    (initializeSession envAllOk c3state).1 = .ok true ∧
    (initializeSession envAllOk c3state).2.isInitialized = true ∧
    c3state.store.privRec = none ∧
    getPrivateKeyRec c3state.store = .error "Private key not found" :=
  ⟨rfl, rfl, rfl, rfl⟩

/-- C3 amended: `initializeSession` treats the mere presence of the
`key_metadata` record as proof of a usable identity: whenever metadata
exists, it succeeds and marks the session initialized without verifying
that the private key record exists or imports (the `verifyCryptoStatus`
call catches and ignores its own failures); a Corrupt store therefore
surfaces only later, when signing first tries to load the private key. -/
theorem c3_metadata_only_success (env : Env) (s : ClientState)
    (h1 : s.isInitialized = false) (h2 : hasKeys s.store = true) :
    initializeSession env s = (.ok true, { s with isInitialized := true }) := by
  simp [initializeSession, h1, h2]

/-- C3 witness: the amended behavior at the concrete Corrupt store. -/
theorem c3_witness :
    initializeSession envAllOk c3state = (.ok true, { c3state with isInitialized := true }) :=
  c3_metadata_only_success envAllOk c3state rfl rfl

/-- C4 counterexample: `/auth/login/` is a member of the encryption set but
not of the signature set, yet the request routed for it carries a signature
header — `createSecureRequest` signs unconditionally on the crypto path, so
an operation in only the encryption set still gets a signature. -/
theorem c4_counterexample :
    shouldSign "/auth/login/" = false ∧
    shouldEncrypt "/auth/login/" = true ∧
    hasHeader (smartRequest "/auth/login/" "POST"
      (Json.obj [("username", Json.str "u"), ("password", Json.str "p")])
      "2025-01-01T00:00:00.000Z" "req_2_def" "fp1234" 0 none noOpts)
      "X-Signature" = true := by
  exact ⟨by decide, by decide, by decide⟩

/-- C4 amended: a signature is attached exactly when the operation is in the
union of the signature and encryption sets (every request on the secure path
is signed), and the payload is encrypted exactly when the operation is in
the encryption set and the payload is truthy. -/
theorem c4_signature_and_encryption_policy (endpoint method : String) (data : Json)
    (ts rid fp : String) (rng : Nat) (tok : Option String) (opts : RequestOptions)
    (hh : opts.headersOverride = none) :
    hasHeader (smartRequest endpoint method data ts rid fp rng tok opts)
      "X-Signature" = (shouldSign endpoint || shouldEncrypt endpoint) ∧
    (createSecureRequest endpoint method data ts rid fp rng).1.encrypted_data.isSome =
      (jsTruthy data && shouldEncrypt endpoint) := by
  constructor
  · have hauth : (authHeaders tok).any (fun p => p.1 == "X-Signature") = false := by
      cases tok <;> rfl
    cases hc : shouldSign endpoint || shouldEncrypt endpoint with
    | true =>
      simp [smartRequest, hc, dispatchSecure, hasHeader, hh, List.any_append, hauth,
        baseSecureHeaders]
    | false =>
      simp [smartRequest, hc, dispatchRegular, hasHeader, hh, List.any_append, hauth]
  · cases he : jsTruthy data && shouldEncrypt endpoint with
    | true => simp [createSecureRequest, he]
    | false => simp [createSecureRequest, he]

/-- C4 witness: the amended policy at a sign-and-encrypt call site. -/
theorem c4_witness :
    hasHeader (smartRequest "/transactions/transfer/" "POST"
      (Json.obj [("amount", Json.num 5)]) "t2" "r2" "fp2" 0 none noOpts)
      "X-Signature" = true :=
  by
    have h := (c4_signature_and_encryption_policy "/transactions/transfer/" "POST"
      (Json.obj [("amount", Json.num 5)]) "t2" "r2" "fp2" 0 none noOpts rfl).1
    rw [h]
    decide

/-- C8: `initializeSession` is idempotent: whenever a call succeeds, the
next call short-circuits on the `isInitialized` flag, returning the same
success with no state change — so across the two calls key generation ran at
most once and at most one registration request was sent. -/
theorem c8_idempotent (env : Env) (s : ClientState) (s1 : ClientState)
    (h : initializeSession env s = (.ok true, s1)) :
    initializeSession env s1 = (.ok true, s1) ∧
    s1.isInitialized = true ∧
    s1.genCount ≤ s.genCount + 1 ∧ s1.regCount ≤ s.regCount + 1 := by
  have key : s1.isInitialized = true ∧ s1.genCount ≤ s.genCount + 1 ∧
      s1.regCount ≤ s.regCount + 1 := by
    cases h0 : s.isInitialized with
    | true =>
      simp [initializeSession, h0] at h
      subst h
      exact ⟨h0, Nat.le_succ _, Nat.le_succ _⟩
    | false =>
      cases h1 : hasKeys s.store with
      | true =>
        simp [initializeSession, h0, h1] at h
        subst h
        exact ⟨rfl, Nat.le_succ _, Nat.le_succ _⟩
      | false =>
        cases hg : env.genOk with
        | false => simp [initializeSession, h0, h1, hg] at h
        | true =>
          cases hsk : (storeKeyPair env.digest env.created (privJwkOf s.rng)
              (pubJwkOf s.rng) env.putFails s.store).1 with
          | error e => simp [initializeSession, h0, h1, hg, hsk] at h
          | ok u =>
            cases hr : env.regOk with
            | false => simp [initializeSession, h0, h1, hg, hsk, hr] at h
            | true =>
              simp [initializeSession, h0, h1, hg, hsk, hr] at h
              subst h
              exact ⟨rfl, Nat.le_refl _, Nat.le_refl _⟩
  exact ⟨by simp [initializeSession, key.1], key⟩

/-- The client state at first application start: empty store, uninitialized
session. -/
def c8start : ClientState :=
  { store := { privRec := none, pubRec := none, metaRec := none },
    isInitialized := false, genCount := 0, regCount := 0, rng := 0 }

/-- C8 witness: from a fresh state under a fault-free environment, the first
call succeeds (generating and registering once) and the second call is a
no-op returning the same result. -/
theorem c8_witness :
    initializeSession envAllOk (initializeSession envAllOk c8start).2 =
      (.ok true, (initializeSession envAllOk c8start).2) ∧
    (initializeSession envAllOk c8start).2.genCount ≤ 1 ∧
    (initializeSession envAllOk c8start).2.regCount ≤ 1 := by
  have h := c8_idempotent envAllOk c8start (initializeSession envAllOk c8start).2 rfl
  exact ⟨h.1, h.2.2.1, h.2.2.2⟩

/-- C9: a GET request issued through the secure client — `get(endpoint)`
dispatches `smartRequest(endpoint, 'GET', null, options)` — carries no body
(the assembled `secureRequest` envelope is not transmitted and, the payload
being `null`, no encryption envelope is ever produced); on the crypto path
the security material travels only in the request identifier, timestamp,
signature and fingerprint headers. The hypotheses hold at every `get` call
site in the repository, all of which pass no options. -/
theorem c9_get_no_body (endpoint ts rid fp : String) (rng : Nat)
    (tok : Option String) (opts : RequestOptions)
    (hb : opts.bodyOverride = none) (hh : opts.headersOverride = none) :
    (getRequest endpoint ts rid fp rng tok opts).body = none ∧
    (createSecureRequest endpoint "GET" Json.null ts rid fp rng).1.encrypted_data
      = none ∧
    ((shouldSign endpoint || shouldEncrypt endpoint) = true →
      hasHeader (getRequest endpoint ts rid fp rng tok opts) "X-Request-ID" = true ∧
      hasHeader (getRequest endpoint ts rid fp rng tok opts) "X-Timestamp" = true ∧
      hasHeader (getRequest endpoint ts rid fp rng tok opts) "X-Signature" = true ∧
      hasHeader (getRequest endpoint ts rid fp rng tok opts) "X-Fingerprint" = true) := by
  refine ⟨?_, ?_, ?_⟩
  · cases hc : shouldSign endpoint || shouldEncrypt endpoint with
    | true =>
      simp [getRequest, smartRequest, hc, dispatchSecure, transmittedBody, hb]
    | false =>
      simp [getRequest, smartRequest, hc, dispatchRegular, hb]
  · simp [createSecureRequest, jsTruthy]
  · intro hc
    refine ⟨?_, ?_, ?_, ?_⟩ <;>
      simp [getRequest, smartRequest, hc, dispatchSecure, hasHeader, hh,
        List.any_append, baseSecureHeaders, authHeaders]

/-- C9 witness: the concrete call `get('/accounts/balance/')`. -/
theorem c9_witness :
    (getRequest "/accounts/balance/" "t3" "r3" "fp3" 0 none noOpts).body = none ∧
    hasHeader (getRequest "/accounts/balance/" "t3" "r3" "fp3" 0 none noOpts)
      "X-Signature" = true := by
  have h := c9_get_no_body "/accounts/balance/" "t3" "r3" "fp3" 0 none noOpts rfl rfl
  exact ⟨h.1, (h.2.2 (by decide)).2.2.1⟩

end SecureBanking
